import Mathlib

/-!
Shallow embedding of `salt/spm/pkgfiles/local.py`: the SPM local-filesystem
package-file backend (path mapping, existence scan, install, remove, hash).
Strings are modelled through their character lists so that every operation is
structurally recursive and kernel-computable.
-/

namespace SpmLocal

/-- POSIX errno `ENOENT` (no such file or directory). -/
def ENOENT : Nat := 2

/-- Python `s.startswith(p)`: the characters of `p` are a leading segment of `s`. -/
def strStartsWith (s p : String) : Bool :=
  p.data.isPrefixOf s.data

/-- Python `s.endswith(p)`: the characters of `p` are a trailing segment of `s`. -/
def strEndsWith (s p : String) : Bool :=
  p.data.isSuffixOf s.data

/-- Drop the first `n` characters of `s` (Python `s[n:]`). -/
def strDrop (s : String) (n : Nat) : String :=
  ⟨s.data.drop n⟩

/-- Number of characters of `s` (Python `len(s)`). -/
def strLen (s : String) : Nat :=
  s.data.length

/-- Remove every leading `/` character. -/
def dropLeadingSlashes (s : String) : String :=
  ⟨s.data.dropWhile (fun c => c == '/')⟩

/-- The connection context built by `init()`: the four destination directories. -/
structure Conn where
  formula_path : String
  pillar_path : String
  reactor_path : String
  spm_module_path : String
deriving Repr, DecidableEq

/-- A formula descriptor: `name` is required by the branches that read
`formula["name"]`; `top_level_dir` is optional (`formula.get("top_level_dir", ...)`). -/
structure Formula where
  name : String
  top_level_dir : Option String
deriving Repr, DecidableEq

/-- The slice of `__opts__` this module reads: the four directory settings used
by `init()`, the `force` flag, and `spm_node_type` (an optional string; Python
`str(None)` is the string `"None"`). -/
structure Opts where
  formula_path : String
  pillar_path : String
  reactor_path : String
  spm_module_path : String
  force : Bool
  spm_node_type : Option String
deriving Repr, DecidableEq

/-- `salt.syspaths.CONFIG_DIR` (the POSIX default; its exact value is irrelevant
to every property below, only its identity as the `-conf` destination). -/
def CONFIG_DIR : String := "/etc/salt"

/-- A tar archive member as this module sees it: a `name` and the result of
`member.isdir()`. -/
structure Member where
  name : String
  isdir : Bool
deriving Repr, DecidableEq

/-- The log calls this module can emit, in order of emission. -/
inductive LogMsg where
  /-- `log.error('Configuration value "spm_node_type" is not set')` -/
  | errNodeTypeNotSet
  /-- `log.debug("Checking if %s:%s is already installed ...", package, member.name)` -/
  | debugChecking (package member : String)
  /-- `log.warning("%s not in top level directory", member.name)` -/
  | warnNotTopLevel (member : String)
  /-- `log.error("%s already exists, not installing", new_path)` -/
  | errAlreadyExists (path : String)
  /-- `log.warning("%s not in top level directory, not installing", member.name)` -/
  | warnNotInstalling (member : String)
  /-- `log.debug("Installing package file %s to %s", member.name, new_path)` -/
  | debugInstalling (member newPath : String)
  /-- `log.debug("Removing package file %s", path)` -/
  | debugRemoving (path : String)
deriving Repr, DecidableEq

/-- `str(__opts__.get("spm_node_type"))`: Python renders the absent value `None`
as the string `"None"`. -/
def nodeTypeStr : Option String → String
  | none => "None"
  | some s => s

/-- `init(**kwargs)` builds the connection context from the four configured
directories.  (Its `os.makedirs` side effect creates missing directories; no
property below depends on that effect, so it is not modelled.) -/
def init (opts : Opts) : Conn :=
  ⟨opts.formula_path, opts.pillar_path, opts.reactor_path, opts.spm_module_path⟩

/-- `_parent_dir = parent_dir or "{}/".format(formula.get("top_level_dir",
formula.get("name", "")))`: Python `or` falls through to the default when
`parent_dir` is `None` or the empty string. -/
def parentDirOf (pdir : Option String) (formula : Formula) : String :=
  match pdir with
  | some s => if s == "" then (formula.top_level_dir.getD formula.name) ++ "/" else s
  | none => (formula.top_level_dir.getD formula.name) ++ "/"

/-- `re.sub(r"^_pillar/+", "", trimmed_path)`: remove a leading `_pillar`
followed by one or more slashes; leave any other string unchanged. -/
def stripPillar (s : String) : String :=
  if strStartsWith s "_pillar/" then dropLeadingSlashes (strDrop s (strLen "_pillar"))
  else s

/-- What `map_path` produces: the `(base_path, file_path)` pair (Python `None`
is `Option.none`) together with the log calls it made. -/
structure MapResult where
  base_path : Option String
  file_path : Option String
  logs : List LogMsg
deriving Repr, DecidableEq

/-- The ordered branch chain of `map_path` applied to the already-trimmed path. -/
def classify (opts : Opts) (formula : Formula) (conn : Conn) (trimmed_path : String) :
    MapResult :=
  if trimmed_path == "FORMULA" then
    ⟨none, none, []⟩
  else if strStartsWith trimmed_path "_pillar/" then
    ⟨some conn.pillar_path, some (stripPillar trimmed_path), []⟩
  else if strStartsWith trimmed_path "_" then
    if nodeTypeStr opts.spm_node_type == "master"
        || nodeTypeStr opts.spm_node_type == "minion" then
      ⟨some conn.spm_module_path, some (strDrop trimmed_path 1), []⟩
    else
      ⟨none, none, [LogMsg.errNodeTypeNotSet]⟩
  else if trimmed_path == "pillar.example" then
    ⟨some conn.pillar_path, some (formula.name ++ ".sls.orig"), []⟩
  else if strEndsWith formula.name "-conf" then
    ⟨some CONFIG_DIR, some trimmed_path, []⟩
  else if strEndsWith formula.name "-reactor" then
    ⟨some conn.reactor_path, some trimmed_path, []⟩
  else
    ⟨some conn.formula_path, some trimmed_path, []⟩

/-- `map_path(path, formula, parent_dir=None, conn=None)`.  When `path` starts
with `_parent_dir`, `path.replace(_parent_dir, "", 1)` removes exactly that
leading occurrence, i.e. drops `len(_parent_dir)` characters. -/
def map_path (opts : Opts) (path : String) (formula : Formula)
    (pdir : Option String) (connArg : Option Conn) : MapResult :=
  let conn := connArg.getD (init opts)
  let pd := parentDirOf pdir formula
  if strStartsWith path pd then
    classify opts formula conn (strDrop path (strLen pd))
  else
    ⟨none, none, []⟩

/-- Python truthiness of an optional string: `None` and `""` are falsy
(`if not base_path or not file_path`). -/
def optFalsy : Option String → Bool
  | none => true
  | some s => s == ""

/-- The filesystem as this module observes it: regular files with byte
contents, directories, and a per-path forced errno standing for any other OS
failure (permission denied, I/O error, ...). -/
structure FSState where
  files : List (String × List Nat)
  dirs : List String
  errno : String → Option Nat

/-- Model of `os.path.exists`. -/
def os_path_exists (fs : FSState) (p : String) : Bool :=
  fs.files.any (fun kv => kv.1 == p) || fs.dirs.contains p

/-- Model of `os.path.isdir`. -/
def os_path_isdir (fs : FSState) (p : String) : Bool :=
  fs.dirs.contains p

/-- Model of `os.remove`: a forced errno raises it; a missing regular file
raises `ENOENT`; otherwise the file disappears from the filesystem. -/
def os_remove (fs : FSState) (p : String) : Except Nat FSState :=
  match fs.errno p with
  | some e => Except.error e
  | none =>
      if fs.files.any (fun kv => kv.1 == p) then
        Except.ok ⟨fs.files.filter (fun kv => !(kv.1 == p)), fs.dirs, fs.errno⟩
      else
        Except.error ENOENT

/-- Model of `salt.utils.files.fopen(path, "rb")` followed by `f.read()`: a
forced errno raises it; a missing file raises `ENOENT`; otherwise the full
byte content is returned. -/
def os_read (fs : FSState) (p : String) : Except Nat (List Nat) :=
  match fs.errno p with
  | some e => Except.error e
  | none =>
      match fs.files.find? (fun kv => kv.1 == p) with
      | some kv => Except.ok kv.2
      | none => Except.error ENOENT

/-- `check_existing(package, pkg_files, formula_def, conn=None)`: walk the
members in order, skip directories, map each name, skip (with a warning) the
ones whose mapping is falsy, and collect the resolved paths that already exist
(logging an error for each unless `force` is set).  Returns the collected
paths together with the log stream. -/
def check_existing (opts : Opts) (package : String) (formula_def : Formula)
    (connArg : Option Conn) (fs : FSState) :
    List Member → List String × List LogMsg
  | [] => ([], [])
  | member :: rest =>
      let tail := check_existing opts package formula_def connArg fs rest
      if member.isdir then
        tail
      else
        let r := map_path opts member.name formula_def none connArg
        let headLogs := LogMsg.debugChecking package member.name :: r.logs
        if optFalsy r.base_path || optFalsy r.file_path then
          (tail.1, headLogs ++ [LogMsg.warnNotTopLevel member.name] ++ tail.2)
        else
          let new_path := r.base_path.getD "" ++ "/" ++ r.file_path.getD ""
          if os_path_exists fs new_path then
            (new_path :: tail.1,
             headLogs
               ++ (if opts.force then [] else [LogMsg.errAlreadyExists new_path])
               ++ tail.2)
          else
            (tail.1, headLogs ++ tail.2)

/-- The effect of `install_file` on the tar handle: either nothing was
extracted, or exactly one member (with its rewritten name) was extracted into
`dest`. -/
inductive TarAction where
  | noExtract
  | extract (m : Member) (dest : String)
deriving Repr, DecidableEq

/-- Outcome of `install_file`: the Python return value (`False` is `none`,
the base path is `some`), the extraction performed, and the log stream. -/
structure InstallResult where
  retval : Option String
  action : TarAction
  logs : List LogMsg
deriving Repr, DecidableEq

/-- `install_file(package, formula_tar, member, formula_def, conn=None)`:
refuse the member named like the package; refuse (with a warning) a falsy
mapping; otherwise rewrite `member.name` to the mapped relative path, extract
that single member into the base directory, and return the base directory. -/
def install_file (opts : Opts) (package : String) (member : Member)
    (formula_def : Formula) (connArg : Option Conn) : InstallResult :=
  if member.name == package then
    ⟨none, TarAction.noExtract, []⟩
  else
    let r := map_path opts member.name formula_def none connArg
    if optFalsy r.base_path || optFalsy r.file_path then
      ⟨none, TarAction.noExtract, r.logs ++ [LogMsg.warnNotInstalling member.name]⟩
    else
      let base := r.base_path.getD ""
      let fp := r.file_path.getD ""
      let new_path := base ++ "/" ++ fp
      ⟨some base, TarAction.extract ⟨fp, member.isdir⟩ base,
        r.logs ++ [LogMsg.debugInstalling fp new_path]⟩

/-- `remove_file(path, conn=None)`: `os.remove`, swallowing only `ENOENT`
(Python returns `None`; the model returns the possibly-updated filesystem). -/
def remove_file (fs : FSState) (path : String) : Except Nat FSState × List LogMsg :=
  let logs := [LogMsg.debugRemoving path]
  match os_remove fs path with
  | Except.ok fs2 => (Except.ok fs2, logs)
  | Except.error e =>
      if e == ENOENT then (Except.ok fs, logs) else (Except.error e, logs)

/-- `hash_file(path, hashobj, conn=None)`: directories hash to `""`; a missing
file hashes to `""`; any other read failure propagates; otherwise the full
content is fed to the caller's accumulator (modelled by its
content-to-hexdigest function) and the hexdigest is returned. -/
def hash_file (fs : FSState) (path : String) (hexdigest : List Nat → String) :
    Except Nat String :=
  if os_path_isdir fs path then
    Except.ok ""
  else
    match os_read fs path with
    | Except.ok content => Except.ok (hexdigest content)
    | Except.error e =>
        if e == ENOENT then Except.ok "" else Except.error e

/-- `path_exists(path)`. -/
def path_exists (fs : FSState) (path : String) : Bool :=
  os_path_exists fs path

/-- `path_isdir(path)`. -/
def path_isdir (fs : FSState) (path : String) : Bool :=
  os_path_isdir fs path

/-- Sample connection context (the spec's scenario values). -/
def conn0 : Conn := ⟨"/f", "/p", "/r", "/m"⟩

/-- Sample options with node role `master`. -/
def opts0 : Opts := ⟨"/f", "/p", "/r", "/m", false, some "master"⟩

/-- Sample options with `spm_node_type` unset. -/
def optsU : Opts := ⟨"/f", "/p", "/r", "/m", false, none⟩

/-- The spec's sample formula. -/
def apacheF : Formula := ⟨"apache", none⟩

end SpmLocal

/-! Helper lemmas. -/

namespace SpmLocal

theorem isPrefixOf_trans : ∀ (l₁ l₂ l₃ : List Char),
    l₁.isPrefixOf l₂ = true → l₂.isPrefixOf l₃ = true → l₁.isPrefixOf l₃ = true
  | [], _, _, _, _ => by simp
  | _ :: _, [], _, h, _ => by simp [List.isPrefixOf] at h
  | _ :: _, _ :: _, [], _, h => by simp [List.isPrefixOf] at h
  | a :: as, b :: bs, c :: cs, h₁, h₂ => by
    simp only [List.isPrefixOf, Bool.and_eq_true, beq_iff_eq] at h₁ h₂ ⊢
    exact ⟨h₁.1.trans h₂.1, isPrefixOf_trans as bs cs h₁.2 h₂.2⟩

theorem strStartsWith_trans (s p q : String) (h₁ : strStartsWith s p = true)
    (h₂ : strStartsWith p q = true) : strStartsWith s q = true :=
  isPrefixOf_trans q.data p.data s.data h₂ h₁

theorem underscore_of_pillarSlash (t : String)
    (h : strStartsWith t "_pillar/" = true) : strStartsWith t "_" = true :=
  strStartsWith_trans t "_pillar/" "_" h (by decide)

theorem beq_FORMULA_false_of_underscore (t : String)
    (h : strStartsWith t "_" = true) : (t == "FORMULA") = false := by
  rw [beq_eq_false_iff_ne]
  intro he
  rw [he] at h
  exact absurd h (by decide)

theorem map_path_not_top (opts : Opts) (path : String) (formula : Formula)
    (pdir : Option String) (connArg : Option Conn)
    (h : strStartsWith path (parentDirOf pdir formula) = false) :
    map_path opts path formula pdir connArg = ⟨none, none, []⟩ := by
  simp [map_path, h]

theorem map_path_eq_classify (opts : Opts) (path : String) (formula : Formula)
    (pdir : Option String) (connArg : Option Conn)
    (h : strStartsWith path (parentDirOf pdir formula) = true) :
    map_path opts path formula pdir connArg
      = classify opts formula (connArg.getD (init opts))
          (strDrop path (strLen (parentDirOf pdir formula))) := by
  simp [map_path, h]

end SpmLocal

/-! Claim theorems. -/

namespace SpmLocal

/-- C1: `map_path` uses `parent_dir` as the expected top-level prefix when it
is given and non-empty, and `"<top_level_dir-or-name>/"` otherwise; a member
path that does not start with that prefix maps to the undetermined pair
`(none, none)`, and so does a member whose trimmed remainder is `"FORMULA"`,
for every formula and node-role configuration. -/
theorem C1_map_path_top_level_and_FORMULA (opts : Opts) (path : String)
    (formula : Formula) (pdir : Option String) (connArg : Option Conn) :
    (∀ s, pdir = some s → s ≠ "" → parentDirOf pdir formula = s)
    ∧ ((pdir = none ∨ pdir = some "") →
        parentDirOf pdir formula = (formula.top_level_dir.getD formula.name) ++ "/")
    ∧ (strStartsWith path (parentDirOf pdir formula) = false →
        (map_path opts path formula pdir connArg).base_path = none
        ∧ (map_path opts path formula pdir connArg).file_path = none)
    ∧ (strStartsWith path (parentDirOf pdir formula) = true →
        strDrop path (strLen (parentDirOf pdir formula)) = "FORMULA" →
        (map_path opts path formula pdir connArg).base_path = none
        ∧ (map_path opts path formula pdir connArg).file_path = none) := by
  refine ⟨?_, ?_, ?_, ?_⟩
  · intro s hs hne
    subst hs
    simp [parentDirOf, beq_eq_false_iff_ne.mpr hne]
  · rintro (h | h) <;> subst h <;> simp [parentDirOf]
  · intro h
    rw [map_path_not_top opts path formula pdir connArg h]
    exact ⟨rfl, rfl⟩
  · intro h1 h2
    rw [map_path_eq_classify opts path formula pdir connArg h1, h2]
    exact ⟨rfl, rfl⟩

/-- Witness for C1 at the spec's scenario inputs: a member outside the
top-level directory and the `FORMULA` manifest entry. -/
theorem C1_witness :
    (map_path opts0 "elsewhere/x" apacheF none (some conn0)).base_path = none
    ∧ (map_path opts0 "apache/FORMULA" apacheF none (some conn0)).file_path = none := by
  refine ⟨?_, ?_⟩
  · exact ((C1_map_path_top_level_and_FORMULA opts0 "elsewhere/x" apacheF none
      (some conn0)).2.2.1 (by decide)).1
  · exact ((C1_map_path_top_level_and_FORMULA opts0 "apache/FORMULA" apacheF none
      (some conn0)).2.2.2 (by decide) (by decide)).2

end SpmLocal

namespace SpmLocal

/-- C2: a member whose trimmed remainder starts with `"_pillar/"` maps to the
configured pillar directory, and its relative path is the trimmed remainder
with the leading `_pillar` segment and every immediately following slash
stripped. -/
theorem C2_map_path_pillar_rule (opts : Opts) (path : String) (formula : Formula)
    (pdir : Option String) (connArg : Option Conn) (t : String)
    (ht : strDrop path (strLen (parentDirOf pdir formula)) = t)
    (hpre : strStartsWith path (parentDirOf pdir formula) = true)
    (hp : strStartsWith t "_pillar/" = true) :
    (map_path opts path formula pdir connArg).base_path
        = some (connArg.getD (init opts)).pillar_path
    ∧ (map_path opts path formula pdir connArg).file_path
        = some (dropLeadingSlashes (strDrop t (strLen "_pillar"))) := by
  have hne := beq_FORMULA_false_of_underscore t (underscore_of_pillarSlash t hp)
  rw [map_path_eq_classify opts path formula pdir connArg hpre, ht]
  simp [classify, hne, hp, stripPillar]

/-- Witness for C2: trimmed `"_pillar/x/y.sls"` maps to the pillar directory
and relative path `"x/y.sls"`. -/
theorem C2_witness :
    (map_path opts0 "apache/_pillar/x/y.sls" apacheF none (some conn0)).base_path
        = some "/p"
    ∧ (map_path opts0 "apache/_pillar/x/y.sls" apacheF none (some conn0)).file_path
        = some "x/y.sls" := by
  have h := C2_map_path_pillar_rule opts0 "apache/_pillar/x/y.sls" apacheF none
    (some conn0) "_pillar/x/y.sls" (by decide) (by decide) (by decide)
  exact ⟨by rw [h.1]; decide, by rw [h.2]; decide⟩

/-- C3: a member whose trimmed remainder starts with `"_"` but not with
`"_pillar/"` is a module/extension file: with node role `"master"` or
`"minion"` it maps to the module-extension directory with the single leading
underscore stripped; with any other or unset role `map_path` logs an error and
returns the undetermined pair (a total function: no exception is raised). -/
theorem C3_map_path_module_rule (opts : Opts) (path : String) (formula : Formula)
    (pdir : Option String) (connArg : Option Conn) (t : String)
    (ht : strDrop path (strLen (parentDirOf pdir formula)) = t)
    (hpre : strStartsWith path (parentDirOf pdir formula) = true)
    (hu : strStartsWith t "_" = true)
    (hnp : strStartsWith t "_pillar/" = false) :
    ((nodeTypeStr opts.spm_node_type = "master"
        ∨ nodeTypeStr opts.spm_node_type = "minion") →
      map_path opts path formula pdir connArg
        = ⟨some (connArg.getD (init opts)).spm_module_path, some (strDrop t 1), []⟩)
    ∧ ((nodeTypeStr opts.spm_node_type ≠ "master"
        ∧ nodeTypeStr opts.spm_node_type ≠ "minion") →
      map_path opts path formula pdir connArg
        = ⟨none, none, [LogMsg.errNodeTypeNotSet]⟩) := by
  have hne := beq_FORMULA_false_of_underscore t hu
  rw [map_path_eq_classify opts path formula pdir connArg hpre, ht]
  constructor
  · rintro (h | h) <;> simp [classify, hne, hnp, hu, h]
  · rintro ⟨h1, h2⟩
    simp [classify, hne, hnp, hu,
      beq_eq_false_iff_ne.mpr h1, beq_eq_false_iff_ne.mpr h2]

/-- Witness for C3: `"apache/_modname/file.py"` with role `master` maps to the
module-extension directory and `"modname/file.py"`; with the role unset it is
undetermined and an error is logged. -/
theorem C3_witness :
    map_path opts0 "apache/_modname/file.py" apacheF none (some conn0)
        = ⟨some "/m", some "modname/file.py", []⟩
    ∧ map_path optsU "apache/_modname/file.py" apacheF none (some conn0)
        = ⟨none, none, [LogMsg.errNodeTypeNotSet]⟩ := by
  constructor
  · have h := (C3_map_path_module_rule opts0 "apache/_modname/file.py" apacheF none
      (some conn0) "_modname/file.py" (by decide) (by decide) (by decide)
      (by decide)).1 (Or.inl (by decide))
    rw [h]; decide
  · have h := (C3_map_path_module_rule optsU "apache/_modname/file.py" apacheF none
      (some conn0) "_modname/file.py" (by decide) (by decide) (by decide)
      (by decide)).2 ⟨by decide, by decide⟩
    rw [h]

end SpmLocal

namespace SpmLocal

/-- C4: when the trimmed remainder matches none of the `FORMULA`, `"_pillar/"`
or leading-underscore rules, resolution proceeds in order, first match wins:
`"pillar.example"` to the pillar directory as `"<name>.sls.orig"`, then a
`-conf` formula name to the system configuration directory, then a `-reactor`
name to the reactor directory, else the formula directory, each with the
trimmed remainder unchanged; and the earlier pillar-prefix rule shadows the
name-suffix rules, so a `*-conf` formula whose member starts with `"_pillar/"`
still resolves via the pillar rule. -/
theorem C4_map_path_tail_rules (opts : Opts) (path : String) (formula : Formula)
    (pdir : Option String) (connArg : Option Conn) (t : String)
    (ht : strDrop path (strLen (parentDirOf pdir formula)) = t)
    (hpre : strStartsWith path (parentDirOf pdir formula) = true) :
    (strStartsWith t "_" = false → t ≠ "FORMULA" →
      ((t = "pillar.example" →
          map_path opts path formula pdir connArg
            = ⟨some (connArg.getD (init opts)).pillar_path,
                some (formula.name ++ ".sls.orig"), []⟩)
       ∧ (t ≠ "pillar.example" → strEndsWith formula.name "-conf" = true →
          map_path opts path formula pdir connArg
            = ⟨some CONFIG_DIR, some t, []⟩)
       ∧ (t ≠ "pillar.example" → strEndsWith formula.name "-conf" = false →
          strEndsWith formula.name "-reactor" = true →
          map_path opts path formula pdir connArg
            = ⟨some (connArg.getD (init opts)).reactor_path, some t, []⟩)
       ∧ (t ≠ "pillar.example" → strEndsWith formula.name "-conf" = false →
          strEndsWith formula.name "-reactor" = false →
          map_path opts path formula pdir connArg
            = ⟨some (connArg.getD (init opts)).formula_path, some t, []⟩)))
    ∧ (strStartsWith t "_pillar/" = true →
        map_path opts path formula pdir connArg
          = ⟨some (connArg.getD (init opts)).pillar_path,
              some (dropLeadingSlashes (strDrop t (strLen "_pillar"))), []⟩) := by
  rw [map_path_eq_classify opts path formula pdir connArg hpre, ht]
  constructor
  · intro hu hF
    have hnp : strStartsWith t "_pillar/" = false := by
      rcases h : strStartsWith t "_pillar/" with _ | _
      · rfl
      · exact absurd (underscore_of_pillarSlash t h) (by simp [hu])
    have hFb := beq_eq_false_iff_ne.mpr hF
    refine ⟨?_, ?_, ?_, ?_⟩
    · intro hpe
      subst hpe
      simp [classify, hu, hnp]
    · intro hpe hc
      simp [classify, hu, hnp, hFb, hc, beq_eq_false_iff_ne.mpr hpe]
    · intro hpe hc hr
      simp [classify, hu, hnp, hFb, hc, hr, beq_eq_false_iff_ne.mpr hpe]
    · intro hpe hc hr
      simp [classify, hu, hnp, hFb, hc, hr, beq_eq_false_iff_ne.mpr hpe]
  · intro hp
    have hne := beq_FORMULA_false_of_underscore t (underscore_of_pillarSlash t hp)
    simp [classify, hne, hp, stripPillar]

/-- Witness for C4: the four ordered outcomes and the shadowing case at
concrete inputs. -/
theorem C4_witness :
    map_path opts0 "apache/pillar.example" apacheF none (some conn0)
        = ⟨some "/p", some "apache.sls.orig", []⟩
    ∧ map_path opts0 "x-conf/cfg.ini" ⟨"x-conf", none⟩ none (some conn0)
        = ⟨some "/etc/salt", some "cfg.ini", []⟩
    ∧ map_path opts0 "x-reactor/a.sls" ⟨"x-reactor", none⟩ none (some conn0)
        = ⟨some "/r", some "a.sls", []⟩
    ∧ map_path opts0 "apache/README" apacheF none (some conn0)
        = ⟨some "/f", some "README", []⟩
    ∧ map_path opts0 "x-conf/_pillar/x.sls" ⟨"x-conf", none⟩ none (some conn0)
        = ⟨some "/p", some "x.sls", []⟩ := by
  refine ⟨?_, ?_, ?_, ?_, ?_⟩
  · have h := (((C4_map_path_tail_rules opts0 "apache/pillar.example" apacheF none
      (some conn0) "pillar.example" (by decide) (by decide)).1 (by decide)
      (by decide)).1) (by decide)
    rw [h]; decide
  · have h := (((C4_map_path_tail_rules opts0 "x-conf/cfg.ini" ⟨"x-conf", none⟩ none
      (some conn0) "cfg.ini" (by decide) (by decide)).1 (by decide)
      (by decide)).2.1) (by decide) (by decide)
    rw [h]; decide
  · have h := (((C4_map_path_tail_rules opts0 "x-reactor/a.sls" ⟨"x-reactor", none⟩
      none (some conn0) "a.sls" (by decide) (by decide)).1 (by decide)
      (by decide)).2.2.1) (by decide) (by decide) (by decide)
    rw [h]; decide
  · have h := (((C4_map_path_tail_rules opts0 "apache/README" apacheF none
      (some conn0) "README" (by decide) (by decide)).1 (by decide)
      (by decide)).2.2.2) (by decide) (by decide) (by decide)
    rw [h]; decide
  · have h := ((C4_map_path_tail_rules opts0 "x-conf/_pillar/x.sls" ⟨"x-conf", none⟩
      none (some conn0) "_pillar/x.sls" (by decide) (by decide)).2) (by decide)
    rw [h]; decide

/-- C7: `map_path` is all-or-nothing: either both halves of the returned pair
are the undetermined sentinel `none`, or both are determined. -/
theorem C7_map_path_all_or_nothing (opts : Opts) (path : String)
    (formula : Formula) (pdir : Option String) (connArg : Option Conn) :
    ((map_path opts path formula pdir connArg).base_path = none
      ∧ (map_path opts path formula pdir connArg).file_path = none)
    ∨ ((map_path opts path formula pdir connArg).base_path ≠ none
      ∧ (map_path opts path formula pdir connArg).file_path ≠ none) := by
  rcases hpre : strStartsWith path (parentDirOf pdir formula) with _ | _
  · rw [map_path_not_top opts path formula pdir connArg hpre]
    exact Or.inl ⟨rfl, rfl⟩
  · rw [map_path_eq_classify opts path formula pdir connArg hpre]
    unfold classify
    split
    · exact Or.inl ⟨rfl, rfl⟩
    · split
      · exact Or.inr ⟨by simp, by simp⟩
      · split
        · split
          · exact Or.inr ⟨by simp, by simp⟩
          · exact Or.inl ⟨rfl, rfl⟩
        · split
          · exact Or.inr ⟨by simp, by simp⟩
          · split
            · exact Or.inr ⟨by simp, by simp⟩
            · split
              · exact Or.inr ⟨by simp, by simp⟩
              · exact Or.inr ⟨by simp, by simp⟩

/-- C10: a trimmed remainder of exactly `"_pillar"` (no trailing slash) is not
handled by the pillar rule but by the leading-underscore module rule: with
node role `"master"` or `"minion"` it maps to the module-extension directory
as `"pillar"`, and with an invalid or unset role it is undetermined. -/
theorem C10_map_path_pillar_no_slash (opts : Opts) (path : String)
    (formula : Formula) (pdir : Option String) (connArg : Option Conn)
    (ht : strDrop path (strLen (parentDirOf pdir formula)) = "_pillar")
    (hpre : strStartsWith path (parentDirOf pdir formula) = true) :
    strStartsWith "_pillar" "_pillar/" = false
    ∧ strStartsWith "_pillar" "_" = true
    ∧ ((nodeTypeStr opts.spm_node_type = "master"
        ∨ nodeTypeStr opts.spm_node_type = "minion") →
      map_path opts path formula pdir connArg
        = ⟨some (connArg.getD (init opts)).spm_module_path, some "pillar", []⟩)
    ∧ ((nodeTypeStr opts.spm_node_type ≠ "master"
        ∧ nodeTypeStr opts.spm_node_type ≠ "minion") →
      map_path opts path formula pdir connArg
        = ⟨none, none, [LogMsg.errNodeTypeNotSet]⟩) := by
  rw [map_path_eq_classify opts path formula pdir connArg hpre, ht]
  have e1 : strStartsWith "_pillar" "_pillar/" = false := by decide
  have e2 : strStartsWith "_pillar" "_" = true := by decide
  have e4 : strDrop "_pillar" 1 = "pillar" := by decide
  refine ⟨e1, e2, ?_, ?_⟩
  · rintro (h | h) <;> simp [classify, e1, e2, e4, h]
  · rintro ⟨h1, h2⟩
    simp [classify, e1, e2,
      beq_eq_false_iff_ne.mpr h1, beq_eq_false_iff_ne.mpr h2]

/-- Witness for C10: `"apache/_pillar"` with role `master` and with the role
unset. -/
theorem C10_witness :
    map_path opts0 "apache/_pillar" apacheF none (some conn0)
        = ⟨some "/m", some "pillar", []⟩
    ∧ map_path optsU "apache/_pillar" apacheF none (some conn0)
        = ⟨none, none, [LogMsg.errNodeTypeNotSet]⟩ := by
  constructor
  · have h := (C10_map_path_pillar_no_slash opts0 "apache/_pillar" apacheF none
      (some conn0) (by decide) (by decide)).2.2.1 (Or.inl (by decide))
    rw [h]; decide
  · have h := (C10_map_path_pillar_no_slash optsU "apache/_pillar" apacheF none
      (some conn0) (by decide) (by decide)).2.2.2 ⟨by decide, by decide⟩
    rw [h]

end SpmLocal

namespace SpmLocal

theorem optFalsy_false_ex (x : Option String) (h : optFalsy x = false) :
    ∃ s, x = some s := by
  cases x with
  | none => exact absurd h (by decide)
  | some s => exact ⟨s, rfl⟩

/-- C5 counterexample: for the non-directory member named `"apache/"` (distinct
from the package identifier) `map_path` determines both halves — base `"/f"`
and relative path `""` — yet `install_file` returns `False` and extracts
nothing, where the claim's final case requires an extraction returning the
base directory. -/
theorem C5_counterexample :
    ("apache/" = "apache-201506-2") = False
    ∧ (map_path opts0 "apache/" apacheF none (some conn0)).base_path = some "/f"
    ∧ (map_path opts0 "apache/" apacheF none (some conn0)).file_path = some ""
    ∧ install_file opts0 "apache-201506-2" ⟨"apache/", false⟩ apacheF (some conn0)
        = ⟨none, TarAction.noExtract, [LogMsg.warnNotInstalling "apache/"]⟩ := by
  refine ⟨by simp, by decide, by decide, by decide⟩

/-- C5 (amended: the mapping is also refused when a determined half is the
empty string, since the code tests Python truthiness, not only `None`):
`install_file` returns `False` with no extraction and no log for the member
named like the package; it returns `False` with a warning and no extraction
when `map_path` yields an undetermined (`None`) or empty base or relative
path; otherwise it extracts exactly the one member, renamed to the mapped
relative path, into the mapped base directory and returns that directory. -/
theorem C5_install_file (opts : Opts) (package : String) (member : Member)
    (formula_def : Formula) (connArg : Option Conn) :
    (member.name = package →
      install_file opts package member formula_def connArg
        = ⟨none, TarAction.noExtract, []⟩)
    ∧ (member.name ≠ package →
      (optFalsy (map_path opts member.name formula_def none connArg).base_path
        || optFalsy (map_path opts member.name formula_def none connArg).file_path)
          = true →
      (install_file opts package member formula_def connArg).retval = none
      ∧ (install_file opts package member formula_def connArg).action
          = TarAction.noExtract
      ∧ LogMsg.warnNotInstalling member.name
          ∈ (install_file opts package member formula_def connArg).logs)
    ∧ (member.name ≠ package →
      (optFalsy (map_path opts member.name formula_def none connArg).base_path
        || optFalsy (map_path opts member.name formula_def none connArg).file_path)
          = false →
      ∃ b f, (map_path opts member.name formula_def none connArg).base_path = some b
        ∧ (map_path opts member.name formula_def none connArg).file_path = some f
        ∧ install_file opts package member formula_def connArg
            = ⟨some b, TarAction.extract ⟨f, member.isdir⟩ b,
                (map_path opts member.name formula_def none connArg).logs
                  ++ [LogMsg.debugInstalling f (b ++ "/" ++ f)]⟩) := by
  refine ⟨?_, ?_, ?_⟩
  · intro h
    simp [install_file, h]
  · intro hne hfal
    simp [install_file, beq_eq_false_iff_ne.mpr hne, hfal]
  · intro hne hfal
    obtain ⟨hb, hf⟩ := Bool.or_eq_false_iff.mp hfal
    obtain ⟨b, hbe⟩ := optFalsy_false_ex _ hb
    obtain ⟨f, hfe⟩ := optFalsy_false_ex _ hf
    refine ⟨b, f, hbe, hfe, ?_⟩
    simp [install_file, beq_eq_false_iff_ne.mpr hne, hfal, hbe, hfe,
      hbe ▸ hb, hfe ▸ hf]

/-- Witness for C5 at the three cases: the member named like the package, a
member outside the top-level directory, and an ordinary payload member. -/
theorem C5_witness :
    install_file opts0 "apache-1" ⟨"apache-1", true⟩ apacheF (some conn0)
        = ⟨none, TarAction.noExtract, []⟩
    ∧ (install_file opts0 "apache-1" ⟨"elsewhere/x", false⟩ apacheF
        (some conn0)).retval = none
    ∧ install_file opts0 "apache-1" ⟨"apache/README", false⟩ apacheF (some conn0)
        = ⟨some "/f", TarAction.extract ⟨"README", false⟩ "/f",
            [LogMsg.debugInstalling "README" "/f/README"]⟩ := by
  refine ⟨?_, ?_, ?_⟩
  · exact (C5_install_file opts0 "apache-1" ⟨"apache-1", true⟩ apacheF
      (some conn0)).1 rfl
  · exact ((C5_install_file opts0 "apache-1" ⟨"elsewhere/x", false⟩ apacheF
      (some conn0)).2.1 (by decide) (by decide)).1
  · obtain ⟨b, f, hb, hf, heq⟩ := (C5_install_file opts0 "apache-1"
      ⟨"apache/README", false⟩ apacheF (some conn0)).2.2 (by decide) (by decide)
    have hb2 : b = "/f" := Option.some.inj (hb.symm.trans (by decide))
    have hf2 : f = "README" := Option.some.inj (hf.symm.trans (by decide))
    subst hb2
    subst hf2
    rw [heq]
    decide

end SpmLocal

namespace SpmLocal

/-- `opts` with the `force` flag replaced. -/
def setForce (o : Opts) (b : Bool) : Opts :=
  ⟨o.formula_path, o.pillar_path, o.reactor_path, o.spm_module_path, b,
    o.spm_node_type⟩

/-- The resolved filesystem path of a member (`os.path.sep.join`). -/
def resolvedPath (opts : Opts) (formula_def : Formula) (connArg : Option Conn)
    (m : Member) : String :=
  (map_path opts m.name formula_def none connArg).base_path.getD "" ++ "/"
    ++ (map_path opts m.name formula_def none connArg).file_path.getD ""

/-- The amended contract of `check_existing`, stated independently of its
loop: the resolved paths, in order, of the non-directory members whose mapping
yields Python-truthy (determined and non-empty) halves and whose resolved path
already exists. -/
def check_existing_spec (opts : Opts) (formula_def : Formula)
    (connArg : Option Conn) (fs : FSState) (pkg_files : List Member) :
    List String :=
  (pkg_files.filter (fun m =>
      !m.isdir
      && !(optFalsy (map_path opts m.name formula_def none connArg).base_path
           || optFalsy (map_path opts m.name formula_def none connArg).file_path)
      && os_path_exists fs (resolvedPath opts formula_def connArg m))).map
    (resolvedPath opts formula_def connArg)

/-- A filesystem on which the path `"/f/"` exists. -/
def fsC6 : FSState := ⟨[("/f/", [])], [], fun _ => none⟩

/-- C6 counterexample: the non-directory member `"apache/"` maps with both
halves determined (base `"/f"`, relative path `""`) and the resolved path
`"/f/"` already exists, yet `check_existing` returns the empty list — the
member is skipped by the Python falsiness test on the empty relative path, so
the claim's "exactly the ... members whose mapping succeeds" fails here. -/
theorem C6_counterexample :
    (map_path opts0 "apache/" apacheF none (some conn0)).base_path = some "/f"
    ∧ (map_path opts0 "apache/" apacheF none (some conn0)).file_path = some ""
    ∧ Member.isdir ⟨"apache/", false⟩ = false
    ∧ os_path_exists fsC6 (resolvedPath opts0 apacheF (some conn0)
        ⟨"apache/", false⟩) = true
    ∧ (check_existing opts0 "apache-1" apacheF (some conn0) fsC6
        [⟨"apache/", false⟩]).1 = [] := by
  decide

theorem check_existing_fst_eq_spec (opts : Opts) (package : String)
    (formula_def : Formula) (connArg : Option Conn) (fs : FSState) :
    ∀ pkg_files, (check_existing opts package formula_def connArg fs pkg_files).1
      = check_existing_spec opts formula_def connArg fs pkg_files
  | [] => rfl
  | m :: rest => by
    have ih := check_existing_fst_eq_spec opts package formula_def connArg fs rest
    rcases hd : m.isdir with _ | _
    · rcases ha : optFalsy (map_path opts m.name formula_def none connArg).base_path
        with _ | _
      · rcases hb : optFalsy (map_path opts m.name formula_def none connArg).file_path
          with _ | _
        · rcases hex : os_path_exists fs
            ((map_path opts m.name formula_def none connArg).base_path.getD ""
              ++ "/"
              ++ (map_path opts m.name formula_def none connArg).file_path.getD "")
            with _ | _
          · simpa [check_existing, check_existing_spec, List.filter_cons,
              resolvedPath, hd, ha, hb, hex] using ih
          · simpa [check_existing, check_existing_spec, List.filter_cons,
              resolvedPath, hd, ha, hb, hex] using ih
        · simpa [check_existing, check_existing_spec, List.filter_cons,
            resolvedPath, hd, ha, hb] using ih
      · simpa [check_existing, check_existing_spec, List.filter_cons,
          resolvedPath, hd, ha] using ih
    · simpa [check_existing, check_existing_spec, List.filter_cons, hd] using ih

theorem check_existing_warn_of_falsy (opts : Opts) (package : String)
    (formula_def : Formula) (connArg : Option Conn) (fs : FSState) :
    ∀ pkg_files, ∀ m ∈ pkg_files, m.isdir = false →
      (optFalsy (map_path opts m.name formula_def none connArg).base_path
        || optFalsy (map_path opts m.name formula_def none connArg).file_path)
          = true →
      LogMsg.warnNotTopLevel m.name
        ∈ (check_existing opts package formula_def connArg fs pkg_files).2
  | [] => by intro m hm; exact absurd hm (List.not_mem_nil m)
  | m0 :: rest => by
    intro m hm hd hfal
    rcases List.mem_cons.mp hm with he | hrest
    · subst he
      simp [check_existing, hd, hfal]
    · have hmem := check_existing_warn_of_falsy opts package formula_def connArg fs
        rest m hrest hd hfal
      rcases hd0 : m0.isdir with _ | _
      · rcases hfal0 : (optFalsy (map_path opts m0.name formula_def none
            connArg).base_path
          || optFalsy (map_path opts m0.name formula_def none connArg).file_path)
          with _ | _
        · rcases hex0 : os_path_exists fs
            ((map_path opts m0.name formula_def none connArg).base_path.getD ""
              ++ "/"
              ++ (map_path opts m0.name formula_def none connArg).file_path.getD "")
            with _ | _
          · simp [check_existing, hd0, hfal0, hex0, hmem]
          · simp [check_existing, hd0, hfal0, hex0, hmem]
        · simp [check_existing, hd0, hfal0, hmem]
      · simp [check_existing, hd0, hmem]

end SpmLocal

namespace SpmLocal

theorem map_path_logs_cases (opts : Opts) (path : String) (formula : Formula)
    (pdir : Option String) (connArg : Option Conn) :
    (map_path opts path formula pdir connArg).logs = []
    ∨ (map_path opts path formula pdir connArg).logs = [LogMsg.errNodeTypeNotSet] := by
  rcases hpre : strStartsWith path (parentDirOf pdir formula) with _ | _
  · rw [map_path_not_top opts path formula pdir connArg hpre]
    exact Or.inl rfl
  · rw [map_path_eq_classify opts path formula pdir connArg hpre]
    unfold classify
    repeat' split
    all_goals first | exact Or.inl rfl | exact Or.inr rfl

theorem check_existing_no_conflict_err_of_force (opts : Opts) (package : String)
    (formula_def : Formula) (connArg : Option Conn) (fs : FSState)
    (hf : opts.force = true) :
    ∀ pkg_files (p : String),
      LogMsg.errAlreadyExists p
        ∉ (check_existing opts package formula_def connArg fs pkg_files).2
  | [] => by intro p; simp [check_existing]
  | m :: rest => by
    intro p
    have ih := check_existing_no_conflict_err_of_force opts package formula_def
      connArg fs hf rest p
    have hml := map_path_logs_cases opts m.name formula_def none connArg
    rcases hd : m.isdir with _ | _
    · rcases hfal : (optFalsy (map_path opts m.name formula_def none
          connArg).base_path
        || optFalsy (map_path opts m.name formula_def none connArg).file_path)
        with _ | _
      · rcases hex : os_path_exists fs
          ((map_path opts m.name formula_def none connArg).base_path.getD ""
            ++ "/"
            ++ (map_path opts m.name formula_def none connArg).file_path.getD "")
          with _ | _
        · rcases hml with h | h <;>
            simp [check_existing, hd, hfal, hex, hf, h, ih]
        · rcases hml with h | h <;>
            simp [check_existing, hd, hfal, hex, hf, h, ih]
      · rcases hml with h | h <;> simp [check_existing, hd, hfal, h, ih]
    · simp [check_existing, hd, ih]

/-- C6 (amended: a member is collected only when its mapping is Python-truthy,
i.e. both halves determined and non-empty — a determined but empty half is
skipped like an undetermined one): `check_existing` returns exactly the
resolved paths of the non-directory members with truthy mappings whose
resolved path already exists; the returned list does not depend on the
`force` option; with `force` set no per-path conflict error is logged; and a
non-directory member whose mapping is falsy is logged as a warning, not
treated as a conflict. -/
theorem C6_check_existing (opts : Opts) (package : String)
    (formula_def : Formula) (connArg : Option Conn) (fs : FSState)
    (pkg_files : List Member) :
    (check_existing opts package formula_def connArg fs pkg_files).1
        = check_existing_spec opts formula_def connArg fs pkg_files
    ∧ (∀ b, (check_existing (setForce opts b) package formula_def connArg fs
          pkg_files).1
        = (check_existing opts package formula_def connArg fs pkg_files).1)
    ∧ (opts.force = true → ∀ p, LogMsg.errAlreadyExists p
        ∉ (check_existing opts package formula_def connArg fs pkg_files).2)
    ∧ (∀ m ∈ pkg_files, m.isdir = false →
        (optFalsy (map_path opts m.name formula_def none connArg).base_path
          || optFalsy (map_path opts m.name formula_def none connArg).file_path)
            = true →
        LogMsg.warnNotTopLevel m.name
          ∈ (check_existing opts package formula_def connArg fs pkg_files).2) :=
  ⟨check_existing_fst_eq_spec opts package formula_def connArg fs pkg_files,
   fun b => by
     rw [check_existing_fst_eq_spec (setForce opts b) package formula_def connArg
        fs pkg_files,
       check_existing_fst_eq_spec opts package formula_def connArg fs pkg_files]
     rfl,
   fun hf p => check_existing_no_conflict_err_of_force opts package formula_def
     connArg fs hf pkg_files p,
   fun m hm hd hfal => check_existing_warn_of_falsy opts package formula_def
     connArg fs pkg_files m hm hd hfal⟩

/-- A filesystem on which `"/f/README"` already exists. -/
def fsC6w : FSState := ⟨[("/f/README", [1])], [], fun _ => none⟩

/-- Witness for C6 with `force` set: the conflicting resolved path is still
returned, no conflict error is logged, and the out-of-tree member is logged
as a warning. -/
theorem C6_witness :
    (check_existing ⟨"/f", "/p", "/r", "/m", true, some "master"⟩ "apache-1"
        apacheF (some conn0) fsC6w
        [⟨"apache/README", false⟩, ⟨"elsewhere/x", false⟩]).1 = ["/f/README"]
    ∧ LogMsg.errAlreadyExists "/f/README"
        ∉ (check_existing ⟨"/f", "/p", "/r", "/m", true, some "master"⟩ "apache-1"
            apacheF (some conn0) fsC6w
            [⟨"apache/README", false⟩, ⟨"elsewhere/x", false⟩]).2
    ∧ LogMsg.warnNotTopLevel "elsewhere/x"
        ∈ (check_existing ⟨"/f", "/p", "/r", "/m", true, some "master"⟩ "apache-1"
            apacheF (some conn0) fsC6w
            [⟨"apache/README", false⟩, ⟨"elsewhere/x", false⟩]).2 := by
  refine ⟨?_, ?_, ?_⟩
  · rw [(C6_check_existing ⟨"/f", "/p", "/r", "/m", true, some "master"⟩ "apache-1"
      apacheF (some conn0) fsC6w
      [⟨"apache/README", false⟩, ⟨"elsewhere/x", false⟩]).1]
    decide
  · exact (C6_check_existing ⟨"/f", "/p", "/r", "/m", true, some "master"⟩
      "apache-1" apacheF (some conn0) fsC6w
      [⟨"apache/README", false⟩, ⟨"elsewhere/x", false⟩]).2.2.1 rfl "/f/README"
  · exact (C6_check_existing ⟨"/f", "/p", "/r", "/m", true, some "master"⟩
      "apache-1" apacheF (some conn0) fsC6w
      [⟨"apache/README", false⟩, ⟨"elsewhere/x", false⟩]).2.2.2
      ⟨"elsewhere/x", false⟩ (by decide) rfl (by decide)

end SpmLocal

namespace SpmLocal

/-- C8: `hash_file` returns the empty string for a directory and for a missing
file (a read failing with `ENOENT`), propagates any other OS read failure
unmodified, and otherwise feeds the full file content to the caller-supplied
accumulator and returns its hexdigest — a function of the content and
accumulator alone, hence deterministic for fixed content and algorithm. -/
theorem C8_hash_file (fs : FSState) (path : String)
    (hexdigest : List Nat → String) :
    (os_path_isdir fs path = true → hash_file fs path hexdigest = Except.ok "")
    ∧ (os_path_isdir fs path = false → os_read fs path = Except.error ENOENT →
        hash_file fs path hexdigest = Except.ok "")
    ∧ (∀ e, e ≠ ENOENT → os_path_isdir fs path = false →
        os_read fs path = Except.error e →
        hash_file fs path hexdigest = Except.error e)
    ∧ (∀ content, os_path_isdir fs path = false →
        os_read fs path = Except.ok content →
        hash_file fs path hexdigest = Except.ok (hexdigest content))
    ∧ (∀ fs2 path2 content, os_path_isdir fs path = false →
        os_read fs path = Except.ok content →
        os_path_isdir fs2 path2 = false →
        os_read fs2 path2 = Except.ok content →
        hash_file fs path hexdigest = hash_file fs2 path2 hexdigest) := by
  refine ⟨?_, ?_, ?_, ?_, ?_⟩
  · intro hd
    simp [hash_file, hd]
  · intro hd hr
    simp [hash_file, hd, hr]
  · intro e he hd hr
    simp [hash_file, hd, hr, he]
  · intro content hd hr
    simp [hash_file, hd, hr]
  · intro fs2 path2 content hd hr hd2 hr2
    simp [hash_file, hd, hr, hd2, hr2]

/-- A filesystem with one regular file `"/a/x"`, one directory `"/d"`, and a
path `"/bad"` that fails with `EACCES` (13). -/
def fsH : FSState :=
  ⟨[("/a/x", [104, 105])], ["/d"],
    fun p => if p == "/bad" then some 13 else none⟩

/-- A second filesystem holding the same content under another path. -/
def fsH2 : FSState := ⟨[("/y", [104, 105])], [], fun _ => none⟩

/-- A sample caller-supplied accumulator. -/
def hexd : List Nat → String :=
  fun c => if c = [104, 105] then "ab12" else "cd34"

/-- Witness for C8: directory, missing file, forced `EACCES` failure, a real
read, and determinism across filesystems holding the same content. -/
theorem C8_witness :
    hash_file fsH "/d" hexd = Except.ok ""
    ∧ hash_file fsH "/missing" hexd = Except.ok ""
    ∧ hash_file fsH "/bad" hexd = Except.error 13
    ∧ hash_file fsH "/a/x" hexd = Except.ok (hexd [104, 105])
    ∧ hash_file fsH "/a/x" hexd = hash_file fsH2 "/y" hexd := by
  refine ⟨?_, ?_, ?_, ?_, ?_⟩
  · exact (C8_hash_file fsH "/d" hexd).1 (by decide)
  · exact (C8_hash_file fsH "/missing" hexd).2.1 (by decide) rfl
  · exact (C8_hash_file fsH "/bad" hexd).2.2.1 13 (by decide) (by decide) rfl
  · exact (C8_hash_file fsH "/a/x" hexd).2.2.2.1 [104, 105] (by decide) rfl
  · exact (C8_hash_file fsH "/a/x" hexd).2.2.2.2 fsH2 "/y" [104, 105]
      (by decide) rfl (by decide) rfl

theorem any_beq_filter_not (path : String) :
    ∀ l : List (String × List Nat),
      (l.filter (fun kv => !(kv.1 == path))).any (fun kv => kv.1 == path) = false := by
  intro l
  rw [List.any_eq_false]
  intro kv hkv
  have h := (List.mem_filter.mp hkv).2
  simp at h
  simp [h]

/-- C9: `remove_file` deletes the file at the path and returns no value
(Python `None`; the model returns the updated filesystem): a missing path
(`ENOENT` from `os.remove`) completes without raising and leaves the
filesystem unchanged; an `OSError` with any other errno propagates; and after
a successful removal of a regular file (a path not also listed as a
directory) a subsequent existence check on the path returns false. -/
theorem C9_remove_file (fs : FSState) (path : String) :
    (fs.errno path = none → fs.files.any (fun kv => kv.1 == path) = false →
        (remove_file fs path).1 = Except.ok fs)
    ∧ (∀ e, fs.errno path = some e → e ≠ ENOENT →
        (remove_file fs path).1 = Except.error e)
    ∧ (fs.errno path = none → fs.files.any (fun kv => kv.1 == path) = true →
        fs.dirs.contains path = false →
        ∃ fs2, (remove_file fs path).1 = Except.ok fs2
          ∧ path_exists fs2 path = false) := by
  refine ⟨?_, ?_, ?_⟩
  · intro he hf
    simp [remove_file, os_remove, he, hf]
  · intro e he hne
    simp [remove_file, os_remove, he, hne]
  · intro he hf hd
    refine ⟨⟨fs.files.filter (fun kv => !(kv.1 == path)), fs.dirs, fs.errno⟩,
      ?_, ?_⟩
    · simp [remove_file, os_remove, he, hf]
    · simp [path_exists, os_path_exists, any_beq_filter_not]
      simpa using hd

/-- A filesystem with one regular file `"/a/x"` and a path `"/bad"` failing
with `EACCES` (13). -/
def fsR : FSState :=
  ⟨[("/a/x", [1])], [], fun p => if p == "/bad" then some 13 else none⟩

/-- Witness for C9: removing a missing path succeeds and changes nothing,
a forced `EACCES` failure propagates, and removing the existing file makes a
subsequent existence check return false. -/
theorem C9_witness :
    (remove_file fsR "/missing").1 = Except.ok fsR
    ∧ (remove_file fsR "/bad").1 = Except.error 13
    ∧ ∃ fs2, (remove_file fsR "/a/x").1 = Except.ok fs2
        ∧ path_exists fs2 "/a/x" = false := by
  refine ⟨?_, ?_, ?_⟩
  · exact (C9_remove_file fsR "/missing").1 rfl (by decide)
  · exact (C9_remove_file fsR "/bad").2.1 13 rfl (by decide)
  · exact (C9_remove_file fsR "/a/x").2.2 rfl (by decide) (by decide)

end SpmLocal
